import Mathlib

/-!
Shallow embedding of the contact-form validation engine of the
TypeScript_Learning repository (`ContactFormValidator` and
`ContactForm.validateField` in the contact-form module), together with
theorems settling the specification's claims about it.

Strings are modelled as Lean `String` (a list of characters); the
ECMAScript whitespace class `\s` (= WhiteSpace ∪ LineTerminator) and the
digit class `\d` (= `[0-9]`) are spelled out explicitly, and the two
anchored regular expressions are embedded by their match semantics.
-/

/-- The ECMAScript `\s` character class (WhiteSpace ∪ LineTerminator):
TAB, LF, VT, FF, CR, SP, NBSP, OGHAM SPACE, the Zs range U+2000–U+200A,
LS, PS, NNBSP, MMSP, IDEOGRAPHIC SPACE, and ZWNBSP.  This is also the set
removed by `String.prototype.trim`. -/
def isJsWhitespace (c : Char) : Bool :=
  (9 ≤ c.toNat && c.toNat ≤ 13) || c.toNat = 32 || c.toNat = 160 ||
  c.toNat = 0x1680 || (0x2000 ≤ c.toNat && c.toNat ≤ 0x200A) ||
  c.toNat = 0x2028 || c.toNat = 0x2029 || c.toNat = 0x202F ||
  c.toNat = 0x205F || c.toNat = 0x3000 || c.toNat = 0xFEFF

/-- `String.prototype.trim`: strip leading and trailing JS whitespace. -/
def jsTrim (s : String) : String :=
  ⟨((s.data.dropWhile isJsWhitespace).reverse.dropWhile isJsWhitespace).reverse⟩

/-- JavaScript truthiness of a string: every string except `""` is truthy. -/
def strTruthy (s : String) : Bool := !(s == "")

/-- A character admitted by `[^\s@]` in `EMAIL_REGEX`: neither JS whitespace
nor `'@'`. -/
def emailChar (c : Char) : Bool := !isJsWhitespace c && c != '@'

/-- One candidate split of `cs` for the anchored regex
`^[^\s@]+@[^\s@]+\.[^\s@]+$` (the static `EMAIL_REGEX`): position `i` holds
the `'@'`, position `j` holds the distinguished `'.'`, the three segments
around them are non-empty and consist of `emailChar`s. -/
def emailSplit (cs : List Char) (i j : Nat) : Bool :=
  decide (1 ≤ i) && decide (i + 2 ≤ j) && decide (j + 2 ≤ cs.length) &&
  ((cs.drop i).take 1 == ['@']) &&
  ((cs.drop j).take 1 == ['.']) &&
  (cs.take i).all emailChar &&
  ((cs.drop (i + 1)).take (j - (i + 1))).all emailChar &&
  (cs.drop (j + 1)).all emailChar

/-- `ContactFormValidator.validateEmail`: `EMAIL_REGEX.test(email)`, i.e.
whether some split position for `'@'` and `'.'` makes the anchored pattern
match the whole string. -/
def validateEmail (email : String) : Bool :=
  (List.range email.data.length).any fun i =>
    (List.range email.data.length).any fun j => emailSplit email.data i j

/-- A character admitted by `[\d\s\-\+\(\)]` in the static `PHONE_REGEX`. -/
def phoneChar (c : Char) : Bool :=
  c.isDigit || isJsWhitespace c || c == '-' || c == '+' || c == '(' || c == ')'

/-- `PHONE_REGEX.test(phone)` for `^[\d\s\-\+\(\)]+$`: a non-empty string of
`phoneChar`s. -/
def phoneRegexTest (s : String) : Bool := !s.data.isEmpty && s.data.all phoneChar

/-- `ContactFormValidator.validatePhone`:
`phone.length === 0 || PHONE_REGEX.test(phone)`. -/
def validatePhone (phone : String) : Bool :=
  phone.length == 0 || phoneRegexTest phone

/-- `ContactFormValidator.validateName`: `name.trim().length >= 2`. -/
def validateName (name : String) : Bool :=
  decide (2 ≤ (jsTrim name).length)

/-- The static constant `ContactFormValidator.MIN_MESSAGE_LENGTH`. -/
def MIN_MESSAGE_LENGTH : Nat := 10

/-- `ContactFormValidator.validateMessage` with the class constant
`MIN_MESSAGE_LENGTH` abstracted as the parameter `minLen`:
`message.trim().length >= minLen`. -/
def validateMessageWith (minLen : Nat) (message : String) : Bool :=
  decide (minLen ≤ (jsTrim message).length)

/-- `ContactFormValidator.validateMessage`, at the actual constant. -/
def validateMessage : String → Bool := validateMessageWith MIN_MESSAGE_LENGTH

/-- The interface `ContactFormData` of `types.ts`: `phone` is optional. -/
structure ContactFormData where
  name : String
  email : String
  message : String
  phone : Option String
deriving DecidableEq, Repr

/-- The type alias `ValidationResult` of the contact-form module. -/
structure ValidationResult where
  isValid : Bool
  errors : List String
deriving DecidableEq, Repr

/-- Error text pushed by `validateForm` for a failing name rule. -/
def nameErrForm : String := "Name must be at least 2 characters long"

/-- Error text pushed by `validateForm` for a failing email rule. -/
def emailErrForm : String := "Please enter a valid email address"

/-- Error text pushed by `validateForm` for a failing phone rule. -/
def phoneErrForm : String := "Please enter a valid phone number"

/-- Error text pushed by `validateForm` for a failing message rule: the
template literal `Message must be at least ${minLen} characters long`,
interpolating the configured minimum length. -/
def formMessageErr (n : Nat) : String :=
  "Message must be at least " ++ (toString n ++ " characters long")

/-- Error text set by `ContactForm.validateField` for a failing name rule. -/
def fieldNameErr : String := "Name must be at least 2 characters"

/-- Error text set by `ContactForm.validateField` for a failing email rule. -/
def fieldEmailErr : String := "Invalid email address"

/-- Error text set by `ContactForm.validateField` for a failing phone rule. -/
def fieldPhoneErr : String := "Invalid phone number"

/-- Error text set by `ContactForm.validateField` for a failing message rule:
the template literal `Message must be at least ${minLen} characters`. -/
def fieldMessageErr (n : Nat) : String :=
  "Message must be at least " ++ (toString n ++ " characters")

/-- The phone block of `validateForm`:
`if (data.phone && !this.validatePhone(data.phone)) errors.push(...)`.
An absent `phone` is falsy, and so is the empty string. -/
def phoneErrors (p : Option String) : List String :=
  match p with
  | none => []
  | some s => if strTruthy s && !validatePhone s then [phoneErrForm] else []

/-- `ContactFormValidator.validateForm` with `MIN_MESSAGE_LENGTH` abstracted
as the parameter `minLen`: evaluate the four field rules in order, pushing
one fixed message per failing rule, and report validity as emptiness of the
error list. -/
def validateFormWith (minLen : Nat) (data : ContactFormData) : ValidationResult :=
  let errors : List String :=
    (if validateName data.name then [] else [nameErrForm]) ++
    (if validateEmail data.email then [] else [emailErrForm]) ++
    phoneErrors data.phone ++
    (if validateMessageWith minLen data.message then [] else [formMessageErr minLen])
  { isValid := errors.length == 0, errors := errors }

/-- `ContactFormValidator.validateForm`, at the actual constant. -/
def validateForm : ContactFormData → ValidationResult :=
  validateFormWith MIN_MESSAGE_LENGTH

/-- `ContactForm.validateField` with `MIN_MESSAGE_LENGTH` abstracted as the
parameter `minLen`: the switch on `field.id` sets `errorMessage` (empty by
default, also for unrecognized identifiers), and a truthy `errorMessage`
means an error is reported.  The reported message is returned as
`some errorMessage`, `none` standing for "no error". -/
def validateFieldWith (minLen : Nat) (fieldId value : String) : Option String :=
  let errorMessage : String :=
    if fieldId == "contactName" then
      (if !validateName value then fieldNameErr else "")
    else if fieldId == "contactEmail" then
      (if !validateEmail value then fieldEmailErr else "")
    else if fieldId == "contactPhone" then
      (if strTruthy value && !validatePhone value then fieldPhoneErr else "")
    else if fieldId == "contactMessage" then
      (if !validateMessageWith minLen value then fieldMessageErr minLen else "")
    else ""
  if errorMessage == "" then none else some errorMessage

/-- `ContactForm.validateField`, at the actual constant. -/
def validateField : String → String → Option String :=
  validateFieldWith MIN_MESSAGE_LENGTH

/-! ### Helper lemmas -/

theorem string_eq_iff_data {s t : String} : s = t ↔ s.data = t.data :=
  ⟨fun h => h ▸ rfl, fun h => by
    cases s; cases t; exact congrArg String.mk (by simpa using h)⟩

theorem phoneChar_iff (c : Char) : phoneChar c = true ↔
    (c.isDigit = true ∨ isJsWhitespace c = true ∨
      c = '-' ∨ c = '+' ∨ c = '(' ∨ c = ')') := by
  simp [phoneChar, Bool.or_eq_true, beq_iff_eq, or_assoc]

theorem validatePhone_iff (s : String) : validatePhone s = true ↔
    (s = "" ∨ ∀ c ∈ s.data, phoneChar c = true) := by
  by_cases hs : s = ""
  · subst hs
    have h1 : validatePhone "" = true := by decide
    simp [h1]
  · have hd : s.data ≠ [] := fun h => hs (string_eq_iff_data.mpr (by simpa using h))
    have hlen : (s.length == 0) = false := by
      rw [beq_eq_false_iff_ne]
      intro h0
      exact hd (List.length_eq_zero.mp h0)
    have hempty : s.data.isEmpty = false := by
      simpa [List.isEmpty_iff] using hd
    unfold validatePhone phoneRegexTest
    rw [hlen, hempty]
    simp [List.all_eq_true, hs]

/-- C6: validatePhone accepts exactly the empty string or a string whose
every character is a digit, a JS whitespace character, '-', '+', '(' or ')';
in particular "" and "123-456-7890" are valid and "call me" is not. -/
theorem validatePhone_spec :
    (∀ s : String, validatePhone s = true ↔
      (s = "" ∨ ∀ c ∈ s.data, (c.isDigit = true ∨ isJsWhitespace c = true ∨
        c = '-' ∨ c = '+' ∨ c = '(' ∨ c = ')'))) ∧
    validatePhone "" = true ∧ validatePhone "123-456-7890" = true ∧
    validatePhone "call me" = false := by
  refine ⟨fun s => ?_, by decide, by decide, by decide⟩
  rw [validatePhone_iff]
  constructor
  · rintro (h | h)
    · exact Or.inl h
    · exact Or.inr fun c hc => (phoneChar_iff c).mp (h c hc)
  · rintro (h | h)
    · exact Or.inl h
    · exact Or.inr fun c hc => (phoneChar_iff c).mpr (h c hc)

/-- C10: a non-empty phone value need not contain any digit: "()", "-" and
a single space all pass validatePhone although none of their characters is
a digit. -/
theorem validatePhone_accepts_digitless :
    (validatePhone "()" = true ∧ "()" ≠ "" ∧ ∀ c ∈ "()".data, c.isDigit = false) ∧
    (validatePhone "-" = true ∧ "-" ≠ "" ∧ ∀ c ∈ "-".data, c.isDigit = false) ∧
    (validatePhone " " = true ∧ " " ≠ "" ∧ ∀ c ∈ " ".data, c.isDigit = false) := by
  decide

/-- C7: validateForm is deterministic and stateless: two calls on the same
input return the same verdict and the same error sequence. -/
theorem validateForm_idempotent (d₁ d₂ : ContactFormData) (h : d₁ = d₂) :
    (validateForm d₁).isValid = (validateForm d₂).isValid ∧
    (validateForm d₁).errors = (validateForm d₂).errors := by
  subst h; exact ⟨rfl, rfl⟩

/-- Witness for C7 at a concrete input. -/
theorem validateForm_idempotent_witness :
    (⟨"Al", "al@x.com", "0123456789", none⟩ : ContactFormData) =
      ⟨"Al", "al@x.com", "0123456789", none⟩ ∧
    ((validateForm ⟨"Al", "al@x.com", "0123456789", none⟩).isValid =
      (validateForm ⟨"Al", "al@x.com", "0123456789", none⟩).isValid ∧
     (validateForm ⟨"Al", "al@x.com", "0123456789", none⟩).errors =
      (validateForm ⟨"Al", "al@x.com", "0123456789", none⟩).errors) :=
  ⟨rfl, validateForm_idempotent _ _ rfl⟩

/-- C4: the validator is total (all outcomes are values) and validateField
on any field identifier outside the four recognized ones returns no error
message, whatever the value. -/
theorem validateField_passthrough (fieldId value : String)
    (h : fieldId ∉ ["contactName", "contactEmail", "contactPhone", "contactMessage"]) :
    validateField fieldId value = none := by
  have h' : ¬ (fieldId = "contactName" ∨ fieldId = "contactEmail" ∨
      fieldId = "contactPhone" ∨ fieldId = "contactMessage") := by simpa using h
  push_neg at h'
  obtain ⟨h1, h2, h3, h4⟩ := h'
  simp [validateField, validateFieldWith, beq_iff_eq, h1, h2, h3, h4]

/-- Witness for C4 at a concrete unrecognized identifier. -/
theorem validateField_passthrough_witness :
    "unknownId" ∉ ["contactName", "contactEmail", "contactPhone", "contactMessage"] ∧
    validateField "unknownId" "anything" = none :=
  ⟨by decide, validateField_passthrough "unknownId" "anything" (by decide)⟩

/-- C2: for each of the four recognized field identifiers, validateField
reports an error exactly when the corresponding rule used by validateForm
fails on the value (for "contactPhone", only when the value is non-empty
and invalid). -/
theorem validateField_matches_form_rules (v : String) :
    ((validateField "contactName" v).isSome = true ↔ validateName v = false) ∧
    ((validateField "contactEmail" v).isSome = true ↔ validateEmail v = false) ∧
    ((validateField "contactPhone" v).isSome = true ↔ (v ≠ "" ∧ validatePhone v = false)) ∧
    ((validateField "contactMessage" v).isSome = true ↔ validateMessage v = false) := by
  have hn : (fieldNameErr == "") = false := by decide
  have he : (fieldEmailErr == "") = false := by decide
  have hp : (fieldPhoneErr == "") = false := by decide
  have hm : (fieldMessageErr MIN_MESSAGE_LENGTH == "") = false := by decide
  refine ⟨?_, ?_, ?_, ?_⟩
  · cases hv : validateName v <;>
      simp [validateField, validateFieldWith, hv, hn]
  · cases hv : validateEmail v <;>
      simp [validateField, validateFieldWith, hv, he]
  · by_cases hv : v = ""
    · subst hv
      simp [validateField, validateFieldWith, strTruthy]
    · cases hvp : validatePhone v <;>
        simp [validateField, validateFieldWith, strTruthy, hv, hvp, hp]
  · have hm2 : fieldMessageErr MIN_MESSAGE_LENGTH ≠ "" := by decide
    cases hv : validateMessage v <;> unfold validateMessage at hv <;>
      simp [validateField, validateFieldWith, hv, hm2]

theorem validateForm_errors (d : ContactFormData) :
    (validateForm d).errors =
      (if validateName d.name then [] else [nameErrForm]) ++
      (if validateEmail d.email then [] else [emailErrForm]) ++
      phoneErrors d.phone ++
      (if validateMessage d.message then [] else [formMessageErr MIN_MESSAGE_LENGTH]) := rfl

theorem validateForm_isValid_iff (d : ContactFormData) :
    (validateForm d).isValid = true ↔ (validateForm d).errors = [] := by
  show ((validateForm d).errors.length == 0) = true ↔ (validateForm d).errors = []
  simp [beq_iff_eq, List.length_eq_zero]

/-- C1: validateForm evaluates all four rules independently, contributes
exactly one fixed message per failing rule (the phone message only when the
phone is present, non-empty and invalid), lists the messages in the fixed
order name, email, phone, message, and isValid holds iff no message was
produced. -/
theorem validateForm_spec (d : ContactFormData) :
    ((validateForm d).isValid = true ↔ (validateForm d).errors = []) ∧
    (validateForm d).errors.count nameErrForm = (if validateName d.name then 0 else 1) ∧
    (validateForm d).errors.count emailErrForm = (if validateEmail d.email then 0 else 1) ∧
    (validateForm d).errors.count phoneErrForm =
      (match d.phone with
        | none => 0
        | some p => if p ≠ "" ∧ validatePhone p = false then 1 else 0) ∧
    (validateForm d).errors.count (formMessageErr MIN_MESSAGE_LENGTH) =
      (if validateMessage d.message then 0 else 1) ∧
    (validateForm d).errors.Sublist
      [nameErrForm, emailErrForm, phoneErrForm, formMessageErr MIN_MESSAGE_LENGTH] := by
  refine ⟨validateForm_isValid_iff d, ?_⟩
  rcases d with ⟨nm, em, ms, ph⟩
  simp only [validateForm_errors]
  rcases ph with _ | p
  · cases h1 : validateName nm <;> cases h2 : validateEmail em <;>
      cases h4 : validateMessage ms <;> decide
  · by_cases hp : p = ""
    · subst hp
      cases h1 : validateName nm <;> cases h2 : validateEmail em <;>
        cases h4 : validateMessage ms <;> decide
    · have hps : strTruthy p = true := by simp [strTruthy, hp]
      cases hvp : validatePhone p <;>
        cases h1 : validateName nm <;> cases h2 : validateEmail em <;>
          cases h4 : validateMessage ms <;>
          simp [phoneErrors, hps, hvp, hp] <;> decide

theorem validateForm_errors_sublist (d : ContactFormData) :
    (validateForm d).errors.Sublist
      [nameErrForm, emailErrForm, phoneErrForm, formMessageErr MIN_MESSAGE_LENGTH] := by
  rcases d with ⟨nm, em, ms, ph⟩
  simp only [validateForm_errors]
  rcases ph with _ | p
  · cases h1 : validateName nm <;> cases h2 : validateEmail em <;>
      cases h4 : validateMessage ms <;> decide
  · by_cases hp : p = ""
    · subst hp
      cases h1 : validateName nm <;> cases h2 : validateEmail em <;>
        cases h4 : validateMessage ms <;> decide
    · have hps : strTruthy p = true := by simp [strTruthy, hp]
      cases hvp : validatePhone p <;>
        cases h1 : validateName nm <;> cases h2 : validateEmail em <;>
          cases h4 : validateMessage ms <;>
          simp [phoneErrors, hps, hvp]

/-- C8: the error list of validateForm is always a subsequence of the fixed
four-message list, so it has at most four entries, no duplicates, and at
most one occurrence of any message. -/
theorem validateForm_errors_shape (d : ContactFormData) :
    (validateForm d).errors.Sublist
      [nameErrForm, emailErrForm, phoneErrForm, formMessageErr MIN_MESSAGE_LENGTH] ∧
    (validateForm d).errors.length ≤ 4 ∧
    (validateForm d).errors.Nodup ∧
    ∀ e : String, (validateForm d).errors.count e ≤ 1 := by
  have hs := validateForm_errors_sublist d
  have hnd : (validateForm d).errors.Nodup := by
    refine List.Nodup.sublist hs ?_
    decide
  refine ⟨hs, ?_, hnd, fun e => List.nodup_iff_count_le_one.mp hnd e⟩
  have := hs.length_le
  simpa using this

/-- C9: an absent phone and an empty-string phone yield identical results,
and neither produces the phone error message. -/
theorem validateForm_phone_absent_empty (nm em ms : String) :
    validateForm ⟨nm, em, ms, none⟩ = validateForm ⟨nm, em, ms, some ""⟩ ∧
    phoneErrForm ∉ (validateForm ⟨nm, em, ms, none⟩).errors ∧
    phoneErrForm ∉ (validateForm ⟨nm, em, ms, some ""⟩).errors := by
  have heq : validateForm ⟨nm, em, ms, none⟩ = validateForm ⟨nm, em, ms, some ""⟩ := by
    unfold validateForm validateFormWith
    simp [phoneErrors, strTruthy]
  refine ⟨heq, ?_, heq ▸ ?_⟩ <;>
  · simp only [validateForm_errors]
    simp only [phoneErrors, strTruthy, List.mem_append]
    cases h1 : validateName nm <;> cases h2 : validateEmail em <;>
      cases h4 : validateMessage ms <;> simp <;> decide

theorem formMessageErr_head (n : Nat) : (formMessageErr n).data.head? = some 'M' := rfl

theorem fieldMessageErr_head (n : Nat) : (fieldMessageErr n).data.head? = some 'M' := rfl

theorem formMessageErr_ne_name (n : Nat) : formMessageErr n ≠ nameErrForm := by
  intro h
  have h2 : (formMessageErr n).data.head? = nameErrForm.data.head? :=
    congrArg (fun s => s.data.head?) h
  rw [formMessageErr_head] at h2
  exact absurd h2 (by decide)

theorem formMessageErr_ne_email (n : Nat) : formMessageErr n ≠ emailErrForm := by
  intro h
  have h2 : (formMessageErr n).data.head? = emailErrForm.data.head? :=
    congrArg (fun s => s.data.head?) h
  rw [formMessageErr_head] at h2
  exact absurd h2 (by decide)

theorem formMessageErr_ne_phone (n : Nat) : formMessageErr n ≠ phoneErrForm := by
  intro h
  have h2 : (formMessageErr n).data.head? = phoneErrForm.data.head? :=
    congrArg (fun s => s.data.head?) h
  rw [formMessageErr_head] at h2
  exact absurd h2 (by decide)

theorem fieldMessageErr_ne_empty (n : Nat) : fieldMessageErr n ≠ "" := by
  intro h
  have h2 : (fieldMessageErr n).data.head? = ("" : String).data.head? :=
    congrArg (fun s => s.data.head?) h
  rw [fieldMessageErr_head] at h2
  exact absurd h2 (by decide)

theorem mem_phoneErrors {s : String} {p : Option String} (h : s ∈ phoneErrors p) :
    s = phoneErrForm := by
  rcases p with _ | q
  · simp [phoneErrors] at h
  · simp [phoneErrors] at h
    exact h.2

theorem validateFormWith_errors (n : Nat) (d : ContactFormData) :
    (validateFormWith n d).errors =
      (if validateName d.name then [] else [nameErrForm]) ++
      (if validateEmail d.email then [] else [emailErrForm]) ++
      phoneErrors d.phone ++
      (if validateMessageWith n d.message then [] else [formMessageErr n]) := rfl

/-- C5 counterexample: the name rule failing on the value "A" is reported by
validateForm as "Name must be at least 2 characters long" but by
validateField as "Name must be at least 2 characters", so the same rule does
not yield the same fixed text at the two reporting sites. -/
theorem form_field_texts_differ :
    validateField "contactName" "A" = some "Name must be at least 2 characters" ∧
    "Name must be at least 2 characters long" ∈
      (validateForm ⟨"A", "a@b.co", "0123456789", none⟩).errors ∧
    ("Name must be at least 2 characters" : String) ≠
      "Name must be at least 2 characters long" ∧
    "Name must be at least 2 characters" ∉
      (validateForm ⟨"A", "a@b.co", "0123456789", none⟩).errors := by
  decide

/-- C5 amended: within each reporting site the text per rule is fixed, and
both validateForm and validateField interpolate the configured
MIN_MESSAGE_LENGTH into the message-length error text and use the same
constant as the threshold, so changing the constant changes check and
message consistently; the two sites however use different fixed texts for
the same rule. -/
theorem message_threshold_interpolated :
    validateForm = validateFormWith MIN_MESSAGE_LENGTH ∧
    validateField = validateFieldWith MIN_MESSAGE_LENGTH ∧
    (∀ (n : Nat) (d : ContactFormData),
      formMessageErr n ∈ (validateFormWith n d).errors ↔
        validateMessageWith n d.message = false) ∧
    (∀ (n : Nat) (v : String),
      validateFieldWith n "contactMessage" v =
        (if validateMessageWith n v then none else some (fieldMessageErr n))) := by
  refine ⟨rfl, rfl, fun n d => ?_, fun n v => ?_⟩
  · have hn := formMessageErr_ne_name n
    have he := formMessageErr_ne_email n
    have hp := formMessageErr_ne_phone n
    rw [validateFormWith_errors]
    cases h4 : validateMessageWith n d.message
    · cases h1 : validateName d.name <;> cases h2 : validateEmail d.email <;>
        simp [List.mem_append]
    · cases h1 : validateName d.name <;> cases h2 : validateEmail d.email <;>
        simp [List.mem_append, hn, he] <;>
        exact fun hm => hp (mem_phoneErrors hm)
  · have hne := fieldMessageErr_ne_empty n
    unfold validateFieldWith
    cases h4 : validateMessageWith n v <;> simp [h4, hne]

theorem emailChar_iff (c : Char) :
    emailChar c = true ↔ (isJsWhitespace c = false ∧ c ≠ '@') := by
  simp [emailChar, Bool.and_eq_true, Bool.not_eq_true', bne_iff_ne]

theorem validateEmail_iff (s : String) :
    validateEmail s = true ↔
      ∃ a b c : List Char, s.data = a ++ '@' :: (b ++ '.' :: c) ∧
        a ≠ [] ∧ b ≠ [] ∧ c ≠ [] ∧
        a.all emailChar = true ∧ b.all emailChar = true ∧ c.all emailChar = true := by
  unfold validateEmail
  rw [List.any_eq_true]
  constructor
  · rintro ⟨i, _, hj⟩
    rw [List.any_eq_true] at hj
    obtain ⟨j, _, hsplit⟩ := hj
    unfold emailSplit at hsplit
    simp only [Bool.and_eq_true, decide_eq_true_eq, beq_iff_eq] at hsplit
    obtain ⟨⟨⟨⟨⟨⟨⟨h1, h2⟩, h3⟩, h4⟩, h5⟩, h6⟩, h7⟩, h8⟩ := hsplit
    refine ⟨s.data.take i, (s.data.drop (i + 1)).take (j - (i + 1)),
      s.data.drop (j + 1), ?_, ?_, ?_, ?_, h6, h7, h8⟩
    · have e1 : s.data.take i ++ s.data.drop i = s.data := List.take_append_drop i s.data
      have e2 : s.data.drop i = '@' :: s.data.drop (i + 1) := by
        have t1 : (s.data.drop i).take 1 ++ (s.data.drop i).drop 1 = s.data.drop i :=
          List.take_append_drop 1 (s.data.drop i)
        rw [h4, List.drop_drop] at t1
        exact t1.symm
      have e3 : s.data.drop (i + 1) =
          (s.data.drop (i + 1)).take (j - (i + 1)) ++ s.data.drop j := by
        have t2 := List.take_append_drop (j - (i + 1)) (s.data.drop (i + 1))
        rw [List.drop_drop] at t2
        have harith : i + 1 + (j - (i + 1)) = j := by omega
        rw [harith] at t2
        exact t2.symm
      have e4 : s.data.drop j = '.' :: s.data.drop (j + 1) := by
        have t3 : (s.data.drop j).take 1 ++ (s.data.drop j).drop 1 = s.data.drop j :=
          List.take_append_drop 1 (s.data.drop j)
        rw [h5, List.drop_drop] at t3
        exact t3.symm
      rw [e2, e3, e4] at e1
      exact e1.symm
    · intro hnil
      have hlen : (s.data.take i).length = 0 := by rw [hnil]; rfl
      rw [List.length_take] at hlen
      omega
    · intro hnil
      have hlen : ((s.data.drop (i + 1)).take (j - (i + 1))).length = 0 := by
        rw [hnil]; rfl
      rw [List.length_take, List.length_drop] at hlen
      omega
    · intro hnil
      have hlen : (s.data.drop (j + 1)).length = 0 := by rw [hnil]; rfl
      rw [List.length_drop] at hlen
      omega
  · rintro ⟨a, b, c, hdec, ha, hb, hc, pa, pb, pc⟩
    have ha' : 0 < a.length := List.length_pos.mpr ha
    have hb' : 0 < b.length := List.length_pos.mpr hb
    have hc' : 0 < c.length := List.length_pos.mpr hc
    have hlen : s.data.length = a.length + b.length + c.length + 2 := by
      rw [hdec]
      simp [List.length_append]
      omega
    have hre1 : s.data = (a ++ ['@']) ++ (b ++ '.' :: c) := by
      rw [hdec]; simp
    have hre2 : s.data = (a ++ '@' :: b) ++ '.' :: c := by
      rw [hdec]; simp
    have hre3 : s.data = ((a ++ '@' :: b) ++ ['.']) ++ c := by
      rw [hdec]; simp
    have g4 : (s.data.drop a.length).take 1 = ['@'] := by
      rw [hdec, List.drop_left]
      rfl
    have g5 : (s.data.drop (a.length + 1 + b.length)).take 1 = ['.'] := by
      rw [hre2, List.drop_left' (by simp [List.length_append]; omega)]
      rfl
    have gt : s.data.take a.length = a := by rw [hdec, List.take_left]
    have hd2 : s.data.drop (a.length + 1) = b ++ '.' :: c := by
      rw [hre1, List.drop_left' (by simp)]
    have harith : a.length + 1 + b.length - (a.length + 1) = b.length := by omega
    have g7 : (s.data.drop (a.length + 1)).take
        (a.length + 1 + b.length - (a.length + 1)) = b := by
      rw [harith, hd2, List.take_left]
    have g8 : s.data.drop (a.length + 1 + b.length + 1) = c := by
      rw [hre3, List.drop_left' (by simp [List.length_append]; omega)]
    refine ⟨a.length, List.mem_range.mpr (by omega), ?_⟩
    rw [List.any_eq_true]
    refine ⟨a.length + 1 + b.length, List.mem_range.mpr (by omega), ?_⟩
    unfold emailSplit
    simp only [Bool.and_eq_true, decide_eq_true_eq, beq_iff_eq]
    refine ⟨⟨⟨⟨⟨⟨⟨by omega, by omega⟩, by omega⟩, g4⟩, g5⟩, ?_⟩, ?_⟩, ?_⟩
    · rw [gt]; exact pa
    · rw [g7]; exact pb
    · rw [g8]; exact pc

/-- C3: validateEmail accepts exactly the strings of the shape
local@domain.tld where the three segments are non-empty and contain neither
whitespace nor a second '@'; "a@b.co" passes while "a@b" and "a b@c.com"
fail. -/
theorem validateEmail_spec :
    (∀ s : String, validateEmail s = true ↔
      ∃ a b c : List Char, s.data = a ++ '@' :: (b ++ '.' :: c) ∧
        a ≠ [] ∧ b ≠ [] ∧ c ≠ [] ∧
        (∀ x ∈ a, isJsWhitespace x = false ∧ x ≠ '@') ∧
        (∀ x ∈ b, isJsWhitespace x = false ∧ x ≠ '@') ∧
        (∀ x ∈ c, isJsWhitespace x = false ∧ x ≠ '@')) ∧
    validateEmail "a@b.co" = true ∧ validateEmail "a@b" = false ∧
    validateEmail "a b@c.com" = false := by
  refine ⟨fun s => ?_, by decide, by decide, by decide⟩
  rw [validateEmail_iff]
  constructor
  · rintro ⟨a, b, c, h, ha, hb, hc, pa, pb, pc⟩
    exact ⟨a, b, c, h, ha, hb, hc,
      fun x hx => (emailChar_iff x).mp (List.all_eq_true.mp pa x hx),
      fun x hx => (emailChar_iff x).mp (List.all_eq_true.mp pb x hx),
      fun x hx => (emailChar_iff x).mp (List.all_eq_true.mp pc x hx)⟩
  · rintro ⟨a, b, c, h, ha, hb, hc, pa, pb, pc⟩
    exact ⟨a, b, c, h, ha, hb, hc,
      List.all_eq_true.mpr fun x hx => (emailChar_iff x).mpr (pa x hx),
      List.all_eq_true.mpr fun x hx => (emailChar_iff x).mpr (pb x hx),
      List.all_eq_true.mpr fun x hx => (emailChar_iff x).mpr (pc x hx)⟩
